import Mathlib

/-!
Shallow embedding of `shared/src/types/io.rs`: the `Io` trait's default
method bodies, the `DefaultIo` provider, the helper routines `prompt_aux`
and `read_aux`, and the dispatch macros `display!`, `display_line!`,
`edisplay!`, `prompt!`.

Modelling conventions:
* Rust `std::io::Error` values carry no text read so far; they are modelled
  by the kind-only type `IoErrorKind`.
* A fallible-but-recoverable Rust operation (`-> io::Result<_>`) is modelled
  with `Except IoErrorKind _`; an operation that can `panic!` / `unwrap` /
  `expect` (a fatal abort of the call chain) is modelled with `PanicOr _`.
* The process-wide standard streams are explicit state: a `World` record
  threaded through the operations that the Rust code reaches via
  `std::io::stdout()`, `std::io::stderr()`, `std::io::stdin()`.
* A caller-supplied `W: std::io::Write` sink is a `Sink`: a text buffer
  plus flags saying whether its `write`/`flush` calls fail.
* A caller-supplied `R: std::io::Read` source is a `Reader` described by
  what draining it to end-of-input yields: valid text, an invalid-UTF-8
  failure, or some valid text followed by an I/O error.
  `Reader.readToString` models `Read::read_to_string(&mut buf)`: on success
  the drained text is appended to `buf`; on invalid UTF-8 `buf` is unchanged;
  on an I/O error the valid bytes read so far are appended before the error
  is returned (the documented behaviour of `read_to_string`).
-/

/-- Kinds of `std::io::Error` relevant to this module. An error value holds
no payload text, matching `std::io::Error` which never carries the data read
or written so far. -/
inductive IoErrorKind where
  | writeRejected
  | flushError
  | invalidData
  | readError
deriving DecidableEq, Repr

/-- Outcome of a Rust computation that may `panic!` (via `unwrap`/`expect`):
either a fatal abort carrying the panic message, or a normal result. -/
inductive PanicOr (α : Type) where
  | panic (msg : String)
  | ok (a : α)
deriving DecidableEq, Repr

/-- A caller-supplied `W: std::io::Write` sink: its accumulated contents and
flags saying whether `write!`/`flush` calls against it fail. -/
structure Sink where
  buf : String
  writeFails : Bool
  flushFails : Bool
deriving DecidableEq, Repr

/-- Semantics of `write!(writer, "{}", s)`: append `s` to the sink's
contents, or return the sink's write error. -/
def Sink.writeStr (w : Sink) (s : String) : Except IoErrorKind Sink :=
  if w.writeFails then Except.error IoErrorKind.writeRejected
  else Except.ok { w with buf := w.buf ++ s }

/-- Semantics of `writer.flush()`: a no-op on the contents, or the sink's
flush error. -/
def Sink.flushW (w : Sink) : Except IoErrorKind Sink :=
  if w.flushFails then Except.error IoErrorKind.flushError
  else Except.ok w

/-- A caller-supplied `R: std::io::Read` source, described by what draining
it to end-of-input yields. -/
inductive Reader where
  | valid (s : String)
  | invalid
  | errAfter (p : String)
deriving DecidableEq, Repr

/-- Semantics of `reader.read_to_string(&mut buf)`: the `io::Result` and the
updated buffer. On success the drained text is appended; on invalid UTF-8 the
buffer is unchanged; on an I/O error the valid text read before the error is
appended to the buffer (but the returned error itself carries no text). -/
def Reader.readToString (r : Reader) (buf : String) :
    Except IoErrorKind Unit × String :=
  match r with
  | Reader.valid s => (Except.ok (), buf ++ s)
  | Reader.invalid => (Except.error IoErrorKind.invalidData, buf)
  | Reader.errAfter p => (Except.error IoErrorKind.readError, buf ++ p)

/-- `prompt_aux` from `io.rs`: write the question into the writer
(`expect("Unable to write")`), flush it (`unwrap()`), drain the reader to
end-of-input into a fresh buffer (`expect("Unable to read")`), and return
the accumulated text. Every failure is a panic (fatal abort). Returns the
updated writer together with the text read. -/
def prompt_aux (reader : Reader) (writer : Sink) (question : String) :
    PanicOr (Sink × String) :=
  match writer.writeStr question with
  | Except.error _ => PanicOr.panic ("Unable to write")
  | Except.ok w1 =>
    match w1.flushW with
    | Except.error _ => PanicOr.panic ("unwrap on Err")
    | Except.ok w2 =>
      match reader.readToString ("") with
      | (Except.error _, _) => PanicOr.panic ("Unable to read")
      | (Except.ok _, s) => PanicOr.ok (w2, s)

/-- `read_aux` from `io.rs`: drain the reader to end-of-input into a fresh
local buffer and return it, propagating any error with `?` — the local
buffer (including any partial text) is dropped on the error path. -/
def read_aux (reader : Reader) : Except IoErrorKind String :=
  match reader.readToString ("") with
  | (Except.error e, _) => Except.error e
  | (Except.ok _, s) => Except.ok s

/-- The process-wide streams reached through `std::io::stdout()`,
`std::io::stderr()`, `std::io::stdin()`: their accumulated contents /
pending input, plus failure flags for the output and error streams. -/
structure World where
  stdout : String
  stderr : String
  stdin : Reader
  stdoutWriteFails : Bool
  stdoutFlushFails : Bool
  stderrWriteFails : Bool
deriving DecidableEq, Repr

/-- Default body of `Io::print`: `print!("{}", output)` — append `output` to
the process-wide output stream with no terminator; `print!` panics if the
underlying write fails. -/
def Io.print (output : String) (w : World) : PanicOr World :=
  if w.stdoutWriteFails then PanicOr.panic ("failed printing to stdout")
  else PanicOr.ok { w with stdout := w.stdout ++ output }

/-- Default body of `Io::flush`: `std::io::stdout().flush().unwrap()` — no
bytes are appended; a failing flush panics. -/
def Io.flush (w : World) : PanicOr World :=
  if w.stdoutFlushFails then PanicOr.panic ("unwrap on Err")
  else PanicOr.ok w

/-- Default body of `Io::println`: `println!("{}", output)` — append
`output` then one line terminator to the process-wide output stream. -/
def Io.println (output : String) (w : World) : PanicOr World :=
  if w.stdoutWriteFails then PanicOr.panic ("failed printing to stdout")
  else PanicOr.ok { w with stdout := w.stdout ++ output ++ "\n" }

/-- Default body of `Io::write`: `write!(writer, "{}", output)` — forward to
the caller-supplied sink and return its `io::Result` unchanged. The world
(process-wide streams) is threaded through untouched. -/
def Io.write (writer : Sink) (output : String) (w : World) :
    World × Except IoErrorKind Sink :=
  (w, writer.writeStr output)

/-- Default body of `Io::writeln`: `writeln!(writer, "{}", output)` — like
`Io.write` with a line terminator appended. -/
def Io.writeln (writer : Sink) (output : String) (w : World) :
    World × Except IoErrorKind Sink :=
  (w, writer.writeStr (output ++ "\n"))

/-- Default body of `Io::eprintln`: `eprintln!("{}", output)` — append
`output` plus a line terminator to the process-wide error stream; panics if
the underlying write fails. -/
def Io.eprintln (output : String) (w : World) : PanicOr World :=
  if w.stderrWriteFails then PanicOr.panic ("failed printing to stderr")
  else PanicOr.ok { w with stderr := w.stderr ++ output ++ "\n" }

/-- Default body of `Io::read`: `read_aux(std::io::stdin().lock())`. -/
def Io.read (w : World) : Except IoErrorKind String :=
  read_aux w.stdin

/-- The `std::io::stdout()` handle viewed as a `Sink`, as `prompt`'s
default body passes it to `prompt_aux`. -/
def Io.stdoutWriter (w : World) : Sink :=
  { buf := w.stdout, writeFails := w.stdoutWriteFails,
    flushFails := w.stdoutFlushFails }

/-- Default body of `Io::prompt`:
`prompt_aux(std::io::stdin().lock(), std::io::stdout(), question)` — the
writer is the process-wide output stream, whose updated contents are folded
back into the world. -/
def Io.prompt (question : String) (w : World) : PanicOr (World × String) :=
  match prompt_aux w.stdin (Io.stdoutWriter w) question with
  | PanicOr.panic m => PanicOr.panic m
  | PanicOr.ok (wr, s) => PanicOr.ok ({ w with stdout := wr.buf }, s)

/-- A capability-set implementation: the record-of-operations view of the
`Io` trait, over which the dispatch macros are generic (`<$io>::...`). -/
structure IoImpl where
  print : String → World → PanicOr World
  flush : World → PanicOr World
  println : String → World → PanicOr World
  write : Sink → String → World → World × Except IoErrorKind Sink
  writeln : Sink → String → World → World × Except IoErrorKind Sink
  eprintln : String → World → PanicOr World
  read : World → Except IoErrorKind String
  prompt : String → World → PanicOr (World × String)

/-- `DefaultIo`: the stateless provider `impl Io for DefaultIo {}` — it
overrides nothing and inherits every default body. -/
def DefaultImpl : IoImpl :=
  { print := Io.print, flush := Io.flush, println := Io.println,
    write := Io.write, writeln := Io.writeln, eprintln := Io.eprintln,
    read := Io.read, prompt := Io.prompt }

/-- `display!($io)`: call `print` with the empty string. -/
def display (io : IoImpl) (w : World) : PanicOr World :=
  io.print ("") w

/-- `display!($io, $($args)*)`: format the arguments (here: the already
formatted text) and call `print`. -/
def displayFmt (io : IoImpl) (formatted : String) (w : World) : PanicOr World :=
  io.print formatted w

/-- `display!($io, $w; $($args)*)`: format the arguments and call `write`
with the given sink, returning its result. -/
def displaySink (io : IoImpl) (writer : Sink) (formatted : String)
    (w : World) : World × Except IoErrorKind Sink :=
  io.write writer formatted w

/-- `display_line!($io)`: call `println` with the empty string. -/
def displayLine (io : IoImpl) (w : World) : PanicOr World :=
  io.println ("") w

/-- `display_line!($io, $($args)*)`: format the arguments and call
`println`. -/
def displayLineFmt (io : IoImpl) (formatted : String) (w : World) :
    PanicOr World :=
  io.println formatted w

/-- `display_line!($io, $w; $($args)*)`: format the arguments and call
`writeln` with the given sink, returning its result. -/
def displayLineSink (io : IoImpl) (writer : Sink) (formatted : String)
    (w : World) : World × Except IoErrorKind Sink :=
  io.writeln writer formatted w

/-- `edisplay!($io, $($args)*)`: format the arguments and call `eprintln`. -/
def edisplay (io : IoImpl) (formatted : String) (w : World) : PanicOr World :=
  io.eprintln formatted w

/-- `prompt!($io, $($arg)*)`: format the arguments into the question and
call `prompt`, returning the text it read. -/
def promptFmt (io : IoImpl) (formatted : String) (w : World) :
    PanicOr (World × String) :=
  io.prompt formatted w

/-- A concrete world used by witnesses: empty streams, empty pending input,
no failures. -/
def sampleWorld : World :=
  { stdout := "", stderr := "", stdin := Reader.valid (""),
    stdoutWriteFails := false, stdoutFlushFails := false,
    stderrWriteFails := false }

/-- Appending to the empty string is the identity (used to discharge the
fresh `String::new()` buffer in `read_aux`/`prompt_aux`). -/
theorem string_empty_append (s : String) : ("" : String) ++ s = s := rfl

/-- C1: `Io.write` and `Io.writeln` return an explicit success/failure
result — their codomain is `Except IoErrorKind Sink`, never a panic, so
they cannot abort the call chain. The result is success exactly when the
sink accepts the bytes, and a recoverable error when it rejects the
write. -/
theorem write_writeln_recoverable (world : World) (sink : Sink)
    (output : String) :
    (sink.writeFails = false →
      (Io.write sink output world).2 =
        Except.ok { sink with buf := sink.buf ++ output } ∧
      (Io.writeln sink output world).2 =
        Except.ok { sink with buf := sink.buf ++ (output ++ "\n") }) ∧
    (sink.writeFails = true →
      (Io.write sink output world).2 = Except.error IoErrorKind.writeRejected ∧
      (Io.writeln sink output world).2 =
        Except.error IoErrorKind.writeRejected) := by
  constructor <;> intro h <;>
    simp [Io.write, Io.writeln, Sink.writeStr, h]

/-- Witness for C1 at a concrete sink and text. -/
theorem write_writeln_recoverable_witness :
    (Io.write { buf := "", writeFails := false, flushFails := false } ("hi")
        sampleWorld).2 =
      Except.ok { buf := "hi", writeFails := false, flushFails := false } ∧
    (Io.write { buf := "", writeFails := true, flushFails := false } ("hi")
        sampleWorld).2 =
      Except.error IoErrorKind.writeRejected := by
  refine ⟨?_, ?_⟩
  · exact ((write_writeln_recoverable sampleWorld
      { buf := "", writeFails := false, flushFails := false } ("hi")).1 rfl).1
  · exact ((write_writeln_recoverable sampleWorld
      { buf := "", writeFails := true, flushFails := false } ("hi")).2 rfl).1

/-- C2: `prompt_aux` writes the question into the writer, flushes it,
drains the reader, and returns the accumulated text verbatim (no
trimming); a failure of any sub-step — failing write, failing flush,
invalid bytes or a read error — is a panic (fatal abort), never a
returned failure. Concretely, with a reader preloaded with "42", an
empty buffer and question "Enter n: ", the buffer ends as exactly
"Enter n: " and the result is "42". -/
theorem prompt_aux_spec :
    (∀ (s q : String) (w : Sink), w.writeFails = false → w.flushFails = false →
      prompt_aux (Reader.valid s) w q =
        PanicOr.ok ({ w with buf := w.buf ++ q }, s)) ∧
    (∀ (r : Reader) (q : String) (w : Sink), w.writeFails = true →
      prompt_aux r w q = PanicOr.panic ("Unable to write")) ∧
    (∀ (r : Reader) (q : String) (w : Sink),
      w.writeFails = false → w.flushFails = true →
      prompt_aux r w q = PanicOr.panic ("unwrap on Err")) ∧
    (∀ (q : String) (w : Sink), w.writeFails = false → w.flushFails = false →
      prompt_aux Reader.invalid w q = PanicOr.panic ("Unable to read") ∧
      (∀ p : String, prompt_aux (Reader.errAfter p) w q =
        PanicOr.panic ("Unable to read"))) ∧
    prompt_aux (Reader.valid ("42"))
        { buf := "", writeFails := false, flushFails := false } ("Enter n: ") =
      PanicOr.ok
        ({ buf := "Enter n: ", writeFails := false, flushFails := false },
          "42") := by
  refine ⟨?_, ?_, ?_, ?_, rfl⟩
  · intro s q w h1 h2
    simp [prompt_aux, Sink.writeStr, Sink.flushW, Reader.readToString, h1, h2,
      string_empty_append]
  · intro r q w h1
    simp [prompt_aux, Sink.writeStr, h1]
  · intro r q w h1 h2
    simp [prompt_aux, Sink.writeStr, Sink.flushW, h1, h2]
  · intro q w h1 h2
    constructor
    · simp [prompt_aux, Sink.writeStr, Sink.flushW, Reader.readToString, h1, h2]
    · intro p
      simp [prompt_aux, Sink.writeStr, Sink.flushW, Reader.readToString, h1, h2]

/-- Witness for C2 at a concrete reader, sink and question. -/
theorem prompt_aux_spec_witness :
    prompt_aux (Reader.valid ("hi"))
        { buf := "A", writeFails := false, flushFails := false } ("q ") =
      PanicOr.ok
        ({ buf := "Aq ", writeFails := false, flushFails := false }, "hi") := by
  exact prompt_aux_spec.1 ("hi") ("q ")
    { buf := "A", writeFails := false, flushFails := false } rfl rfl

/-- C3: `read_aux` returns success with exactly the drained text, a
recoverable `Except.error` (its codomain is `Except`, not a panic) when
the read fails or the bytes are invalid text, and success with the empty
string on immediate end-of-input. -/
theorem read_aux_spec :
    (∀ s : String, read_aux (Reader.valid s) = Except.ok s) ∧
    read_aux (Reader.valid ("")) = Except.ok ("") ∧
    read_aux Reader.invalid = Except.error IoErrorKind.invalidData ∧
    (∀ p : String, read_aux (Reader.errAfter p) =
      Except.error IoErrorKind.readError) :=
  ⟨fun _ => rfl, rfl, rfl, fun _ => rfl⟩

/-- C4: for text without an embedded line terminator, `Io.println` appends
exactly the text followed by one line terminator to the process-wide
output stream, and `Io.print` appends exactly the text. -/
theorem print_println_exact (t : String) (w : World)
    (_hterm : '\n' ∉ t.data) (hok : w.stdoutWriteFails = false) :
    Io.println t w = PanicOr.ok { w with stdout := w.stdout ++ t ++ "\n" } ∧
    Io.print t w = PanicOr.ok { w with stdout := w.stdout ++ t } := by
  simp [Io.println, Io.print, hok]

/-- Witness for C4 at a concrete text and world. -/
theorem print_println_exact_witness :
    Io.println ("ab") sampleWorld =
      PanicOr.ok { sampleWorld with stdout := "ab\n" } ∧
    Io.print ("ab") sampleWorld =
      PanicOr.ok { sampleWorld with stdout := "ab" } := by
  exact print_println_exact ("ab") sampleWorld (by decide) rfl

/-- C5: against a sink that starts empty and accepts writes, `Io.writeln`
leaves the sink's contents equal to the text plus a line terminator, and
`Io.write` leaves them equal to exactly the text. -/
theorem write_writeln_empty_sink (t : String) (sink : Sink) (w : World)
    (hbuf : sink.buf = "") (hok : sink.writeFails = false) :
    (∃ s1 : Sink, (Io.writeln sink t w).2 = Except.ok s1 ∧
      s1.buf = t ++ "\n") ∧
    (∃ s2 : Sink, (Io.write sink t w).2 = Except.ok s2 ∧ s2.buf = t) := by
  refine ⟨⟨{ sink with buf := sink.buf ++ (t ++ "\n") }, ?_, ?_⟩,
          ⟨{ sink with buf := sink.buf ++ t }, ?_, ?_⟩⟩ <;>
    simp [Io.writeln, Io.write, Sink.writeStr, hok, hbuf, string_empty_append]

/-- Witness for C5 at a concrete sink and text. -/
theorem write_writeln_empty_sink_witness :
    (∃ s1 : Sink,
      (Io.writeln { buf := "", writeFails := false, flushFails := false } ("T")
          sampleWorld).2 = Except.ok s1 ∧ s1.buf = "T" ++ "\n") ∧
    (∃ s2 : Sink,
      (Io.write { buf := "", writeFails := false, flushFails := false } ("T")
          sampleWorld).2 = Except.ok s2 ∧ s2.buf = "T") :=
  write_writeln_empty_sink ("T")
    { buf := "", writeFails := false, flushFails := false } sampleWorld rfl rfl

/-- C6: the default capability-set bodies for `read` and `prompt` are
exactly the compositions of the helper routines over the process-wide
streams: `read` is `read_aux` on process input, and `prompt` is
`prompt_aux` over (process input, process output, question), with the
writer's final contents folded back into the output stream. -/
theorem default_read_prompt_compose :
    (∀ w : World, DefaultImpl.read w = read_aux w.stdin) ∧
    (∀ (w : World) (q : String),
      DefaultImpl.prompt q w =
        match prompt_aux w.stdin (Io.stdoutWriter w) q with
        | PanicOr.panic m => PanicOr.panic m
        | PanicOr.ok (wr, s) => PanicOr.ok ({ w with stdout := wr.buf }, s)) :=
  ⟨fun _ => rfl, fun _ _ => rfl⟩

/-- C7: `Io.write` and `Io.writeln` against an explicit sink leave the
process-wide standard output, error and input streams entirely
unchanged. -/
theorem write_writeln_frame (w : World) (sink : Sink) (output : String) :
    (Io.write sink output w).1 = w ∧
    (Io.write sink output w).1.stdout = w.stdout ∧
    (Io.write sink output w).1.stderr = w.stderr ∧
    (Io.write sink output w).1.stdin = w.stdin ∧
    (Io.writeln sink output w).1 = w ∧
    (Io.writeln sink output w).1.stdout = w.stdout ∧
    (Io.writeln sink output w).1.stderr = w.stderr ∧
    (Io.writeln sink output w).1.stdin = w.stdin :=
  ⟨rfl, rfl, rfl, rfl, rfl, rfl, rfl, rfl⟩

/-- C8: for every capability-set implementation, the dispatch layer only
formats and forwards: the sink variants return exactly the result of
`write`/`writeln`, the prompt variant returns exactly what `prompt`
returns, and the print-family/eprint variants forward to
`print`/`println`/`eprintln`. -/
theorem dispatch_forwards (io : IoImpl) (w : World) (sink : Sink)
    (formatted : String) :
    displaySink io sink formatted w = io.write sink formatted w ∧
    displayLineSink io sink formatted w = io.writeln sink formatted w ∧
    promptFmt io formatted w = io.prompt formatted w ∧
    displayFmt io formatted w = io.print formatted w ∧
    displayLineFmt io formatted w = io.println formatted w ∧
    edisplay io formatted w = io.eprintln formatted w ∧
    display io w = io.print ("") w ∧
    displayLine io w = io.println ("") w :=
  ⟨rfl, rfl, rfl, rfl, rfl, rfl, rfl, rfl⟩

/-- C9: `Io.flush` is observably idempotent on the process-wide output
stream: after a successful flush, flushing again succeeds with the very
same world, and no bytes were appended to the stream. -/
theorem flush_idempotent (w w1 : World) (h : Io.flush w = PanicOr.ok w1) :
    Io.flush w1 = PanicOr.ok w1 ∧ w1.stdout = w.stdout := by
  unfold Io.flush at h ⊢
  by_cases hf : w.stdoutFlushFails = true
  · simp [hf] at h
  · simp [hf] at h
    subst h
    simp [hf]

/-- Witness for C9 at a concrete world. -/
theorem flush_idempotent_witness :
    Io.flush sampleWorld = PanicOr.ok sampleWorld ∧
    sampleWorld.stdout = sampleWorld.stdout :=
  flush_idempotent sampleWorld sampleWorld rfl

/-- C10: `read_aux` is all-or-nothing: every run returns either the
complete drained text (exactly what `read_to_string` accumulated) or a
bare error. In particular, when the reader yields partial valid text
before an I/O error, that partial text never appears in the result — the
error type `IoErrorKind` carries no text at all. -/
theorem read_aux_all_or_nothing :
    (∀ r : Reader,
      (∃ s : String, read_aux r = Except.ok s ∧
        r.readToString ("") = (Except.ok (), s)) ∨
      (∃ e : IoErrorKind, read_aux r = Except.error e)) ∧
    (∀ p : String, read_aux (Reader.errAfter p) =
      Except.error IoErrorKind.readError) := by
  constructor
  · intro r
    cases r with
    | valid s => exact Or.inl ⟨s, rfl, rfl⟩
    | invalid => exact Or.inr ⟨IoErrorKind.invalidData, rfl⟩
    | errAfter p => exact Or.inr ⟨IoErrorKind.readError, rfl⟩
  · intro p
    rfl
